import Mathlib

/-!
Shallow embedding of the SmartAssistant integration hub's session-auth,
OAuth-refresh and SSE-transport core (the three MCP tool servers, the
shared token store, and the orchestrator backend), together with proofs
of the specified properties.

Conventions: machine time is `Int` epoch seconds; JavaScript string
truthiness is modelled by comparison with `""`; numeric user ids are `Nat`
(the servers that coerce ids with `String(...)` act bijectively on the
numeric ids minted by the orchestrator, so the coercion is dropped).
-/

/-- JWT claim set carried by a session token (`userId`, `aud`, `iss`, `exp`).
Absent claims are `none`. -/
structure JwtClaims where
  userId : Option Nat
  aud : Option String
  iss : Option String
  exp : Option Int
deriving DecidableEq, Repr

/-- A signed token: its claims plus the secret it was signed with.
Signature verification against a secret `s` succeeds iff `sig = s`. -/
structure SignedToken where
  claims : JwtClaims
  sig : String
deriving DecidableEq, Repr

inductive VerifyErr where
  | badSignature
  | expired
  | audMismatch
  | issMismatch
deriving DecidableEq, Repr

/-- jsonwebtoken expiry rule: when the token carries `exp`, verification
fails iff `now >= exp`. -/
def expiredAt : Option Int → Int → Bool
  | some e, now => e ≤ now
  | none, _ => false

/-- jsonwebtoken audience rule: when the verifier passes an `audience`
option, the token's `aud` claim must equal it (an absent claim fails). -/
def audFails : Option String → Option String → Bool
  | none, _ => false
  | some a, actual => if actual = some a then false else true

/-- jsonwebtoken issuer rule, analogous to the audience rule. -/
def issFails : Option String → Option String → Bool
  | none, _ => false
  | some i, actual => if actual = some i then false else true

/-- `jwt.verify(token, secret, opts)`: signature, then expiry, then the
audience and issuer options when configured. -/
def jwtVerify (t : SignedToken) (secret : String) (aud issr : Option String)
    (now : Int) : Except VerifyErr JwtClaims :=
  if t.sig ≠ secret then .error .badSignature
  else if expiredAt t.claims.exp now then .error .expired
  else if audFails aud t.claims.aud then .error .audMismatch
  else if issFails issr t.claims.iss then .error .issMismatch
  else .ok t.claims

/-- One inbound header slot as the servers read it: absent or empty string
(falsy), a non-token string, a `Bearer <token>` value, or a bare token. -/
inductive RawHeader where
  | missing
  | malformed (s : String)
  | bearer (t : SignedToken)
  | plain (t : SignedToken)
deriving DecidableEq, Repr

/-- `req.headers["authorization"] || req.headers["x-session"] || ""`:
the first truthy (non-empty) header wins. -/
def pickHeader : RawHeader → RawHeader → RawHeader
  | .missing, x => x
  | h, _ => h

/-- Strip the optional case-insensitive `bearer ` prefix and decode; an
empty or non-token value yields no token (verification then throws). -/
def tokenOfHeader : RawHeader → Option SignedToken
  | .missing => none
  | .malformed _ => none
  | .bearer t => some t
  | .plain t => some t

/-- Verifier configuration of one tool server: shared HMAC secret plus the
optional `audience` / `issuer` options it passes to `jwt.verify`. -/
structure VerifierCfg where
  secret : String
  aud : Option String
  issr : Option String
deriving DecidableEq, Repr

/-- The QuickBooks MCP servers (part_000, part_001) verify with the secret
only: no audience and no issuer option is passed. -/
def qbCfg (secret : String) : VerifierCfg := ⟨secret, none, none⟩

/-- The Housecall Pro MCP server (part_012) passes
`audience: "housecallpro-mcp"` and the configured issuer. -/
def hpCfg (secret issuer : String) : VerifierCfg :=
  ⟨secret, some "housecallpro-mcp", some issuer⟩

/-- Per-request context bound by `ctxStore.run`: the verified user id. -/
structure Ctx where
  userId : Nat
deriving DecidableEq, Repr

/-- `requireSession`: pick the first non-empty of the two header slots,
strip `Bearer `, verify the JWT, and require a truthy `userId` claim
(`!decoded?.userId` rejects both an absent claim and the falsy value 0).
Any failure yields the single 401 `invalid_session` rejection. -/
def requireSession (cfg : VerifierCfg) (authH xsH : RawHeader) (now : Int) :
    Except Unit Ctx :=
  match tokenOfHeader (pickHeader authH xsH) with
  | none => .error ()
  | some t =>
    match jwtVerify t cfg.secret cfg.aud cfg.issr now with
    | .error _ => .error ()
    | .ok c =>
      match c.userId with
      | none => .error ()
      | some u => if u = 0 then .error () else .ok ⟨u⟩

/-- Observable actions of a route handler, in order of occurrence. -/
inductive Effect where
  | respond (status : Nat) (body : String)
  | register (sessionId : String)
  | bindCtx (userId : Nat)
  | tokenGet (userId : Nat) (provider : String)
deriving DecidableEq, Repr

def Effect.isTokenGet : Effect → Bool
  | .tokenGet _ _ => true
  | _ => false

def Effect.isRespond : Effect → Bool
  | .respond _ _ => true
  | _ => false

/-- `activeTransports`: the in-process map from session id to the open
stream, enriched with the context that was bound when the stream opened. -/
def ServerState := List (String × Ctx)

/-- `Map.get`: first entry with the given key. -/
def lookupA (st : ServerState) (sid : String) : Option Ctx :=
  match st with
  | [] => none
  | (k, c) :: rest => if k = sid then some c else lookupA rest sid

/-- `Map.set`: replace the entry for the key, or add one. -/
def setA (st : ServerState) (sid : String) (c : Ctx) : ServerState :=
  match st with
  | [] => [(sid, c)]
  | (k, c0) :: rest =>
    if k = sid then (sid, c) :: rest else (k, c0) :: setA rest sid c

/-- `GET /sse`: `requireSession` first; on failure the one 401 response and
nothing else; on success register the fresh session id and connect the MCP
server under `ctxStore.run(sess, ...)`. -/
def sseOpen (cfg : VerifierCfg) (st : ServerState) (authH xsH : RawHeader)
    (now : Int) (sid : String) : List Effect × ServerState :=
  match requireSession cfg authH xsH now with
  | .error _ => ([.respond 401 "invalid_session"], st)
  | .ok c => ([.register sid, .bindCtx c.userId], setA st sid c)

/-- `res.on("close", ...)`: `activeTransports.delete(sessionId)`. -/
def streamClose (st : ServerState) (sid : String) : ServerState :=
  match st with
  | [] => []
  | (k, c) :: rest =>
    if k = sid then streamClose rest sid else (k, c) :: streamClose rest sid

/-- Result of `POST /messages`: 401, 400 `no_active_transport`, or the
message handled under an observed context, with the stream's open-time
context recorded alongside for comparison. -/
inductive PostResult where
  | authFailed
  | noTransport
  | handled (observed bound : Ctx)
deriving DecidableEq, Repr

/-- `POST /messages`: `requireSession` on the post's own headers, then look
the session id up in `activeTransports`; a found transport handles the
message under `ctxStore.run(sess, ...)` where `sess` came from this post's
token. `toolFx` abstracts whatever effects the dispatched tool handlers
perform under the bound context. The handler never writes the map. -/
def postMessage (cfg : VerifierCfg) (toolFx : Ctx → List Effect)
    (st : ServerState) (authH xsH : RawHeader) (now : Int) (sid : String) :
    PostResult × List Effect × ServerState :=
  match requireSession cfg authH xsH now with
  | .error _ => (.authFailed, [.respond 401 "invalid_session"], st)
  | .ok sess =>
    match lookupA st sid with
    | none => (.noTransport, [.respond 400 "no_active_transport"], st)
    | some bound => (.handled sess bound, .bindCtx sess.userId :: toolFx sess, st)

/-- One row of the `tokens` table (src/db.ts), after `normalize`. -/
structure TokenRow where
  userId : Nat
  provider : String
  access_token : String
  refresh_token : Option String
  realmId : Option String
  expires_at : Option Int
deriving DecidableEq, Repr

/-- `getTokens(userId, provider)`: the row for the key, or null. -/
def getTokens (tbl : List TokenRow) (uid : Nat) (provider : String) :
    Option TokenRow :=
  match tbl with
  | [] => none
  | r :: rest =>
    if r.userId = uid ∧ r.provider = provider then some r
    else getTokens rest uid provider

/-- `upsertTokens`: Supabase `upsert` with `onConflict: "user_id,provider"`
— overwrite the row with that key if present, else insert; the payload
already carries `?? null` defaults, so it equals the row itself. -/
def upsertTokens (tbl : List TokenRow) (row : TokenRow) : List TokenRow :=
  match tbl with
  | [] => [row]
  | r :: rest =>
    if r.userId = row.userId ∧ r.provider = row.provider then row :: rest
    else r :: upsertTokens rest row

/-- At most one row per (userId, provider) key — the table invariant the
unique index maintains. -/
def keysUnique (tbl : List TokenRow) : Prop :=
  tbl.Pairwise fun a b => ¬(a.userId = b.userId ∧ a.provider = b.provider)

/-- JS truthiness of an optional string: null/undefined and `""` are falsy. -/
def strTruthy : Option String → Bool
  | some s => s ≠ ""
  | none => false

/-- Response of the provider's token endpoint to one refresh call: HTTP
status, raw body text, and the parsed JSON fields used on success. -/
structure RefreshProviderResp where
  status : Nat
  body : String
  access_token : String
  refresh_token : Option String
  expires_in : Option Int
deriving DecidableEq, Repr

/-- `resp.ok`: status in [200, 300). -/
def respOk (status : Nat) : Bool := 200 ≤ status ∧ status < 300

inductive RefreshErr where
  | refreshFailed (status : Nat) (body : String)
deriving DecidableEq, Repr

/-- `expires_at = data.expires_in ? now + data.expires_in : null` — JS
truthiness: the branch is taken only for a present, non-zero value. -/
def refreshExpiresAt (expires_in : Option Int) (now : Int) : Option Int :=
  match expires_in with
  | some e => if e ≠ 0 then some (now + e) else none
  | none => none

/-- `refreshWithQbo(refresh_token, userId, realmId)` (part_000 / part_001):
one POST to the provider token endpoint; on non-2xx throw `QBO refresh
failed: <status> <body>` without touching the store; on success upsert the
new access token, `data.refresh_token ?? refresh_token`, the passed-through
`realmId ?? null` and the computed expiry. Returns the result together
with the updated table and the number of provider calls made. -/
def refreshWithQbo (refresh_token : String) (userId : Nat)
    (realmId : Option String) (resp : RefreshProviderResp) (now : Int)
    (tbl : List TokenRow) :
    Except RefreshErr Unit × List TokenRow × Nat :=
  if ¬respOk resp.status then
    (.error (.refreshFailed resp.status resp.body), tbl, 1)
  else
    let row : TokenRow :=
      { userId := userId
        provider := "quickbooks"
        access_token := resp.access_token
        refresh_token := some (resp.refresh_token.getD refresh_token)
        realmId := realmId
        expires_at := refreshExpiresAt resp.expires_in now }
    (.ok (), upsertTokens tbl row, 1)

/-- Reply of one upstream QuickBooks API call. -/
structure UpstreamResp where
  status : Nat
  body : String
deriving DecidableEq, Repr

/-- `text.includes(code)`: substring test on the character lists. -/
def strIncl (hay needle : String) : Bool :=
  inclAux hay.toList needle.toList
where
  inclAux (hay needle : List Char) : Bool :=
    match hay with
    | [] => needle.isEmpty
    | _ :: t => needle.isPrefixOf hay || inclAux t needle

/-- part_001's auth-failure test: a 401, or a 400 whose body contains the
provider error code `3100`. -/
def isAuthError (r : UpstreamResp) : Bool :=
  r.status = 401 || (r.status = 400 && strIncl r.body "3100")

inductive QbError where
  | missingContext
  | notConnected
  | upstreamError (status : Nat) (body : String)
  | refreshFailed (status : Nat) (body : String)
  | refreshNoToken
  | unauthorized
deriving DecidableEq, Repr

/-- What one `doFetch` evaluates to: parsed body, `needRefresh` marker, or
a thrown `QBO error`. `hasRefresh` is the truthiness of the closed-over
original row's `refresh_token`. -/
inductive DoFetchRes where
  | ok (body : String)
  | needRefresh (text : String)
  | err (status : Nat) (body : String)
deriving DecidableEq, Repr

def doFetch (r : UpstreamResp) (hasRefresh : Bool) : DoFetchRes :=
  if respOk r.status then .ok r.body
  else if isAuthError r && hasRefresh then .needRefresh r.body
  else .err r.status r.body

/-- Accounting of one `qbRequest` call: its result, the table afterwards,
the number of upstream API attempts, and the number of refresh calls. -/
structure QbCallTally where
  result : Except QbError String
  tbl : List TokenRow
  attempts : Nat
  refreshes : Nat
deriving Repr

/-- `qbRequest` (part_001): resolve the ambient context, load the row
(`QuickBooks not connected` when the access token or realmId is falsy),
fetch; on an auth failure with a refresh token on file, refresh once,
reload the row, and retry exactly once; a second auth failure is terminal
`Unauthorized after refresh`. `upstream n` is the reply to the n-th
upstream attempt and `refreshResp` the provider's reply to the (single
possible) refresh call. -/
def qbRequest (ctx : Option Ctx) (tbl : List TokenRow)
    (upstream : Nat → UpstreamResp) (refreshResp : RefreshProviderResp)
    (now : Int) : QbCallTally :=
  match ctx with
  | none => ⟨.error .missingContext, tbl, 0, 0⟩
  | some c =>
    match getTokens tbl c.userId "quickbooks" with
    | none => ⟨.error .notConnected, tbl, 0, 0⟩
    | some row =>
      if ¬(strTruthy (some row.access_token) && strTruthy row.realmId) then
        ⟨.error .notConnected, tbl, 0, 0⟩
      else
        match doFetch (upstream 0) (strTruthy row.refresh_token) with
        | .ok body => ⟨.ok body, tbl, 1, 0⟩
        | .err s b => ⟨.error (.upstreamError s b), tbl, 1, 0⟩
        | .needRefresh _ =>
          match refreshWithQbo (row.refresh_token.getD "") c.userId
              row.realmId refreshResp now tbl with
          | (.error (.refreshFailed s b), tbl1, _) =>
            ⟨.error (.refreshFailed s b), tbl1, 1, 1⟩
          | (.ok _, tbl1, _) =>
            match getTokens tbl1 c.userId "quickbooks" with
            | none => ⟨.error .refreshNoToken, tbl1, 1, 1⟩
            | some latest =>
              if ¬strTruthy (some latest.access_token) then
                ⟨.error .refreshNoToken, tbl1, 1, 1⟩
              else
                match doFetch (upstream 1) (strTruthy row.refresh_token) with
                | .ok body => ⟨.ok body, tbl1, 2, 1⟩
                | .err s b => ⟨.error (.upstreamError s b), tbl1, 2, 1⟩
                | .needRefresh _ => ⟨.error .unauthorized, tbl1, 2, 1⟩

/-- Orchestrator backend JWT configuration (audience default "mcp",
issuer default "backend", TTL default 3600 seconds). -/
structure BackendEnv where
  secret : String
  aud : String
  issr : String
  ttl : Int
deriving DecidableEq, Repr

/-- `isQboConnected(userId)` (backend): false without a row or a truthy
access token; false when a truthy (non-zero) `expires_at` is ≤ now. -/
def isQboConnected (tbl : List TokenRow) (now : Int) (userId : Nat) : Bool :=
  match getTokens tbl userId "quickbooks" with
  | none => false
  | some row =>
    if ¬strTruthy (some row.access_token) then false
    else
      match row.expires_at with
      | some e => if e ≠ 0 && e ≤ now then false else true
      | none => true

inductive ChatErr where
  | messageRequired
  | qboNotConnected
deriving DecidableEq, Repr

/-- `jwt.sign({ userId: 1, iat }, secret, { audience, issuer, expiresIn })`
as minted by `POST /chat`. -/
def mintChatJwt (env : BackendEnv) (now : Int) : SignedToken :=
  { claims :=
      { userId := some 1
        aud := some env.aud
        iss := some env.issr
        exp := some (now + env.ttl) }
    sig := env.secret }

/-- A `POST /chat` request: the optional `message` body field (absent or
empty is falsy and rejected) plus arbitrary caller-supplied header
material, which the handler never reads. -/
structure ChatReq where
  message : Option String
  callerHeaders : List (String × String)
deriving DecidableEq, Repr

/-- `POST /chat` (backend): validate `message`, pre-flight
`isQboConnected(1)`, then mint the MCP session JWT with the constant
`userId: 1`. Returns the outcome plus the handler's effect trace (the
pre-flight Token Store get appears with the key it was called with). -/
def chatHandler (env : BackendEnv) (tbl : List TokenRow) (now : Int)
    (req : ChatReq) : Except ChatErr SignedToken × List Effect :=
  match req.message with
  | none => (.error .messageRequired, [.respond 400 "message is required"])
  | some m =>
    if m = "" then (.error .messageRequired, [.respond 400 "message is required"])
    else if ¬isQboConnected tbl now 1 then
      (.error .qboNotConnected,
        [.tokenGet 1 "quickbooks", .respond 400 "QuickBooks not connected for userId=1"])
    else
      (.ok (mintChatJwt env now), [.tokenGet 1 "quickbooks", .respond 200 "chat"])

/-- A stored Gmail OAuth credential set (part_003's `userTokens` values). -/
structure GmailTokens where
  access_token : String
  refresh_token : Option String
deriving DecidableEq, Repr

/-- part_003's module-level `userTokens` map from user-id key to tokens. -/
def GmailStore := List (String × GmailTokens)

def gmailLookup (store : GmailStore) (k : String) : Option GmailTokens :=
  match store with
  | [] => none
  | (k0, v) :: rest => if k0 = k then some v else gmailLookup rest k

/-- A `POST /gmail/send` request: body fields plus arbitrary caller header
material (authorization etc.), which the handler never consults. -/
structure GmailSendReq where
  toAddr : String
  subject : String
  body : String
  cc : Option String
  bcc : Option String
  callerHeaders : List (String × String)
deriving DecidableEq, Repr

inductive GmailSendRes where
  | badRequest
  | notConnected
  | sent (creds : GmailTokens)
deriving DecidableEq, Repr

/-- `POST /gmail/send` (part_003): no session verification of any kind;
validate the body's truthiness-checked fields, then read the credential
stored under the fixed key `"user1"` and send with it. The result records
which stored credential was used. -/
def gmailSend (store : GmailStore) (req : GmailSendReq) : GmailSendRes :=
  if req.toAddr = "" || req.subject = "" || req.body = "" then .badRequest
  else
    match gmailLookup store "user1" with
    | none => .notConnected
    | some toks => .sent toks

/-- Key predicate on token rows, as a Boolean for filtering. -/
def keyMatch (uid : Nat) (prov : String) (r : TokenRow) : Bool :=
  decide (r.userId = uid) && decide (r.provider = prov)

/-- No row of the table carries the given key. -/
def noKey (tbl : List TokenRow) (uid : Nat) (prov : String) : Prop :=
  ∀ r ∈ tbl, ¬(r.userId = uid ∧ r.provider = prov)

/-- A token for user 1, valid and acceptable everywhere in the examples. -/
def liveTok : SignedToken := ⟨⟨some 1, some "mcp", some "backend", some 9999⟩, "s"⟩

/-- A well-formed session token signed with the shared secret but carrying
the foreign audience `"X"` — distinct from both the `"mcp"` audience the
orchestrator mints for the QuickBooks server and the Housecall Pro
server's `"housecallpro-mcp"`. -/
def foreignAudTok : SignedToken :=
  ⟨⟨some 1, some "X", some "backend", some 9999⟩, "s"⟩

/-- Valid session tokens for two distinct users, both acceptable to the
QuickBooks server's verifier. -/
def sessTok (u : Nat) : SignedToken :=
  ⟨⟨some u, some "mcp", some "backend", some 9999⟩, "s"⟩

/-- A session token that expired one second before the request arrives. -/
def staleTok : SignedToken := ⟨⟨some 1, some "mcp", some "backend", some 10⟩, "s"⟩

/-- The provider's refresh reply whose `expires_in` is the (falsy) number
0: a supplied expiry the code's truthiness test treats as absent. -/
def zeroExpResp : RefreshProviderResp := ⟨200, "", "newTok", none, some 0⟩

/-- The credential row `refreshWithQbo` writes on a successful refresh,
as seen from inside `qbRequest`. -/
def refreshedRow (c : Ctx) (row : TokenRow) (rresp : RefreshProviderResp)
    (now : Int) : TokenRow :=
  { userId := c.userId, provider := "quickbooks",
    access_token := rresp.access_token,
    refresh_token := some (rresp.refresh_token.getD (row.refresh_token.getD "")),
    realmId := row.realmId,
    expires_at := refreshExpiresAt rresp.expires_in now }

theorem filter_keyMatch_eq_nil {tbl : List TokenRow} {uid : Nat} {prov : String}
    (h : noKey tbl uid prov) : tbl.filter (keyMatch uid prov) = [] := by
  induction tbl with
  | nil => rfl
  | cons r rest ih =>
    have hr := h r (by simp)
    have hm : keyMatch uid prov r = false := by
      by_cases h1 : r.userId = uid
      · by_cases h2 : r.provider = prov
        · exact absurd ⟨h1, h2⟩ hr
        · simp [keyMatch, h2]
      · simp [keyMatch, h1]
    simp only [List.filter, hm]
    exact ih fun x hx => h x (by simp [hx])

theorem mem_upsertTokens {tbl : List TokenRow} {row b : TokenRow}
    (h : b ∈ upsertTokens tbl row) : b ∈ tbl ∨ b = row := by
  induction tbl with
  | nil =>
    simp [upsertTokens] at h
    exact Or.inr h
  | cons r rest ih =>
    by_cases hk : r.userId = row.userId ∧ r.provider = row.provider
    · simp [upsertTokens, hk] at h
      rcases h with h | h
      · exact Or.inr h
      · exact Or.inl (by simp [h])
    · simp [upsertTokens, hk] at h
      rcases h with h | h
      · exact Or.inl (by simp [h])
      · rcases ih h with h' | h'
        · exact Or.inl (by simp [h'])
        · exact Or.inr h'

theorem keysUnique_upsertTokens {tbl : List TokenRow} (row : TokenRow)
    (h : keysUnique tbl) : keysUnique (upsertTokens tbl row) := by
  induction tbl with
  | nil => simp [upsertTokens, keysUnique]
  | cons r rest ih =>
    rcases List.pairwise_cons.mp h with ⟨hr, hrest⟩
    by_cases hk : r.userId = row.userId ∧ r.provider = row.provider
    · simp only [upsertTokens, if_pos hk]
      refine List.pairwise_cons.mpr ⟨?_, hrest⟩
      intro b hb
      have := hr b hb
      rw [hk.1, hk.2] at this
      exact this
    · simp only [upsertTokens, if_neg hk]
      refine List.pairwise_cons.mpr ⟨?_, ih hrest⟩
      intro b hb
      rcases mem_upsertTokens hb with h' | h'
      · exact hr b h'
      · rw [h']
        exact hk

theorem filter_keyMatch_upsert {tbl : List TokenRow} (row : TokenRow)
    (h : keysUnique tbl) :
    (upsertTokens tbl row).filter (keyMatch row.userId row.provider) = [row] := by
  induction tbl with
  | nil => simp [upsertTokens, List.filter, keyMatch]
  | cons r rest ih =>
    rcases List.pairwise_cons.mp h with ⟨hr, hrest⟩
    by_cases hk : r.userId = row.userId ∧ r.provider = row.provider
    · simp only [upsertTokens, if_pos hk]
      have hm : keyMatch row.userId row.provider row = true := by
        simp [keyMatch]
      have hnil : rest.filter (keyMatch row.userId row.provider) = [] := by
        refine filter_keyMatch_eq_nil ?_
        intro b hb hcon
        exact hr b hb ⟨hk.1.trans hcon.1.symm, hk.2.trans hcon.2.symm⟩
      simp [List.filter, hm, hnil]
    · simp only [upsertTokens, if_neg hk]
      have hm : keyMatch row.userId row.provider r = false := by
        simp [keyMatch]
        intro h1
        exact fun h2 => hk ⟨h1, h2⟩
      simp [List.filter, hm]
      exact ih hrest

theorem upsertTokens_idem (tbl : List TokenRow) (row : TokenRow) :
    upsertTokens (upsertTokens tbl row) row = upsertTokens tbl row := by
  induction tbl with
  | nil => simp [upsertTokens]
  | cons r rest ih =>
    by_cases hk : r.userId = row.userId ∧ r.provider = row.provider
    · simp [upsertTokens, hk]
    · simp only [upsertTokens, if_neg hk]
      rw [ih]

theorem getTokens_upsert (tbl : List TokenRow) (row : TokenRow) :
    getTokens (upsertTokens tbl row) row.userId row.provider = some row := by
  induction tbl with
  | nil => simp [upsertTokens, getTokens]
  | cons r rest ih =>
    by_cases hk : r.userId = row.userId ∧ r.provider = row.provider
    · simp [upsertTokens, getTokens, hk]
    · simp only [upsertTokens, if_neg hk]
      simp [getTokens, hk, ih]

theorem lookupA_streamClose (st : ServerState) (sid : String) :
    lookupA (streamClose st sid) sid = none := by
  induction st with
  | nil => rfl
  | cons p rest ih =>
    obtain ⟨k, c⟩ := p
    by_cases h : k = sid
    · simpa [streamClose, h] using ih
    · simp [streamClose, lookupA, h, ih]

theorem jwtVerify_aud_ne (t : SignedToken) (secret : String) (a : String)
    (issr : Option String) (now : Int) (h : t.claims.aud ≠ some a) :
    ∃ e, jwtVerify t secret (some a) issr now = .error e := by
  unfold jwtVerify
  split_ifs with h1 h2 h3 h4
  · exact ⟨_, rfl⟩
  · exact ⟨_, rfl⟩
  · exact ⟨_, rfl⟩
  · exact ⟨_, rfl⟩
  · exact absurd (show audFails (some a) t.claims.aud = true by simp [audFails, h]) h3

/-- C6: whenever the provider token endpoint returns a non-2xx status, the
refresh client raises an error carrying the provider's status and body,
makes exactly one provider call (no retry of its own), and leaves the
Token Store unchanged: no upsert happens on the failure path. -/
theorem C6_refresh_failure_no_upsert (rt : String) (uid : Nat)
    (realm : Option String) (resp : RefreshProviderResp) (now : Int)
    (tbl : List TokenRow) (hfail : respOk resp.status = false) :
    refreshWithQbo rt uid realm resp now tbl =
      (.error (.refreshFailed resp.status resp.body), tbl, 1) := by
  simp [refreshWithQbo, hfail]

theorem C6_refresh_failure_no_upsert_witness :
    respOk 400 = false ∧
    refreshWithQbo "r" 1 (some "realm")
        ⟨400, "invalid_grant", "", none, none⟩ 0 [] =
      (.error (.refreshFailed 400 "invalid_grant"), [], 1) :=
  ⟨by decide,
   C6_refresh_failure_no_upsert "r" 1 (some "realm")
     ⟨400, "invalid_grant", "", none, none⟩ 0 [] (by decide)⟩

/-- C7: a message-post (carrying a valid session) whose session identifier
was deregistered when its stream closed — or more generally identifies no
currently-open stream — is rejected with the 400 `no_active_transport`
response, and the transport map is left untouched: nothing is created or
resurrected. -/
theorem C7_closed_session_not_served (cfg : VerifierCfg)
    (toolFx : Ctx → List Effect) (st : ServerState) (authH xsH : RawHeader)
    (now : Int) (sid : String) (sess : Ctx)
    (hs : requireSession cfg authH xsH now = .ok sess) :
    postMessage cfg toolFx (streamClose st sid) authH xsH now sid =
      (.noTransport, [.respond 400 "no_active_transport"], streamClose st sid) ∧
    (∀ st2 : ServerState, lookupA st2 sid = none →
      postMessage cfg toolFx st2 authH xsH now sid =
        (.noTransport, [.respond 400 "no_active_transport"], st2)) := by
  constructor
  · simp [postMessage, hs, lookupA_streamClose]
  · intro st2 h2
    simp [postMessage, hs, h2]

theorem C7_closed_session_not_served_witness :
    requireSession (qbCfg "s") (.bearer liveTok) .missing 0 = .ok ⟨1⟩ ∧
    postMessage (qbCfg "s") (fun _ => []) (streamClose [("sid1", ⟨1⟩)] "sid1")
        (.bearer liveTok) .missing 0 "sid1" =
      (.noTransport, [.respond 400 "no_active_transport"],
        streamClose [("sid1", ⟨1⟩)] "sid1") :=
  ⟨rfl,
   (C7_closed_session_not_served (qbCfg "s") (fun _ => []) [("sid1", ⟨1⟩)]
     (.bearer liveTok) .missing 0 "sid1" ⟨1⟩ rfl).1⟩

/-- C8: Supabase upsert keyed on (user_id, provider) is last-write-wins —
upserting twice with the same key and different access tokens leaves
exactly one row for that key, equal to the second write — and repeating
the same record is idempotent. -/
theorem C8_upsert_last_write_wins (tbl : List TokenRow) (r1 r2 : TokenRow)
    (hu : keysUnique tbl) (hk1 : r1.userId = r2.userId)
    (hk2 : r1.provider = r2.provider) (hd : r1.access_token ≠ r2.access_token) :
    (upsertTokens (upsertTokens tbl r1) r2).filter
        (keyMatch r2.userId r2.provider) = [r2] ∧
    (∀ (t : List TokenRow) (r : TokenRow),
      upsertTokens (upsertTokens t r) r = upsertTokens t r) :=
  ⟨filter_keyMatch_upsert r2 (keysUnique_upsertTokens r1 hu), upsertTokens_idem⟩

theorem C8_upsert_last_write_wins_witness :
    keysUnique [] ∧
    (upsertTokens (upsertTokens [] ⟨7, "quickbooks", "a1", none, none, none⟩)
        ⟨7, "quickbooks", "a2", none, none, none⟩).filter (keyMatch 7 "quickbooks") =
      [⟨7, "quickbooks", "a2", none, none, none⟩] :=
  ⟨List.Pairwise.nil,
   (C8_upsert_last_write_wins [] ⟨7, "quickbooks", "a1", none, none, none⟩
     ⟨7, "quickbooks", "a2", none, none, none⟩ List.Pairwise.nil rfl rfl
     (by decide)).1⟩

/-- C10: the email tool server's `/gmail/send` performs no session
verification — swapping any caller-identity header material never changes
the outcome — and a successful send always uses exactly the credential
stored under the fixed key `"user1"`. -/
theorem C10_gmail_single_fixed_credential (store : GmailStore)
    (req : GmailSendReq) (h1 h2 : List (String × String)) :
    gmailSend store { req with callerHeaders := h1 } =
      gmailSend store { req with callerHeaders := h2 } ∧
    (∀ toks, gmailSend store req = .sent toks →
      gmailLookup store "user1" = some toks) := by
  constructor
  · rfl
  · intro toks h
    unfold gmailSend at h
    by_cases hb : (req.toAddr = "" || req.subject = "" || req.body = "") = true
    · rw [if_pos hb] at h
      simp at h
    · rw [if_neg hb] at h
      cases hl : gmailLookup store "user1" with
      | none => rw [hl] at h; simp at h
      | some t =>
        rw [hl] at h
        injection h with h'
        exact congrArg some h'

theorem C10_gmail_single_fixed_credential_witness :
    gmailSend [("user1", ⟨"ga", none⟩)]
        ⟨"a@b.c", "subj", "hello", none, none, []⟩ = .sent ⟨"ga", none⟩ ∧
    gmailLookup [("user1", ⟨"ga", none⟩)] "user1" = some ⟨"ga", none⟩ :=
  ⟨by decide,
   (C10_gmail_single_fixed_credential [("user1", ⟨"ga", none⟩)]
     ⟨"a@b.c", "subj", "hello", none, none, []⟩ [] []).2 ⟨"ga", none⟩ (by decide)⟩

/-- C1 counterexample: the claim says a token minted with one audience is
rejected by a verifier expecting a different audience in every tool
server; but the QuickBooks servers' `requireSession` passes no audience
option to `jwt.verify`, so a token with the foreign audience `"X"` is
accepted there. -/
theorem C1_quickbooks_accepts_foreign_audience :
    foreignAudTok.claims.aud = some "X" ∧ (some "X" : Option String) ≠ some "mcp" ∧
    (qbCfg "s").aud = none ∧
    requireSession (qbCfg "s") (.bearer foreignAudTok) .missing 0 = .ok ⟨1⟩ :=
  ⟨rfl, by decide, rfl, rfl⟩

/-- C1 amended: audience enforcement holds in the Housecall Pro tool
server, whose verifier is the only one configured with an expected
audience: any token whose audience claim differs from
`"housecallpro-mcp"` is rejected there, whatever else the token carries;
the QuickBooks tool servers pass no audience option and accept tokens of
any audience. -/
theorem C1_housecall_audience_enforced (secret issuer : String)
    (t : SignedToken) (authH xsH : RawHeader) (now : Int)
    (haud : t.claims.aud ≠ some "housecallpro-mcp")
    (ht : tokenOfHeader (pickHeader authH xsH) = some t) :
    requireSession (hpCfg secret issuer) authH xsH now = .error () := by
  obtain ⟨e, he⟩ :=
    jwtVerify_aud_ne t secret "housecallpro-mcp" (some issuer) now haud
  simp only [requireSession, ht, hpCfg, he]

theorem C1_housecall_audience_enforced_witness :
    foreignAudTok.claims.aud ≠ some "housecallpro-mcp" ∧
    tokenOfHeader (pickHeader (.bearer foreignAudTok) .missing) =
      some foreignAudTok ∧
    requireSession (hpCfg "s" "backend") (.bearer foreignAudTok) .missing 0 =
      .error () :=
  ⟨by decide, rfl,
   C1_housecall_audience_enforced "s" "backend" foreignAudTok
     (.bearer foreignAudTok) .missing 0 (by decide) rfl⟩

/-- C3 counterexample: user 1 opens the stream `"sid1"`; a message-post on
that stream presenting user 2's valid token is handled, and the tool
invocation observes user 2's identity — not the identity bound at stream
open. Two distinct tenant identities are thereby multiplexed over the one
stream, refuting the claim. -/
theorem C3_post_identity_overrides_stream_identity :
    (postMessage (qbCfg "s") (fun _ => [])
        (sseOpen (qbCfg "s") [] (.bearer (sessTok 1)) .missing 0 "sid1").2
        (.bearer (sessTok 2)) .missing 0 "sid1").1 = .handled ⟨2⟩ ⟨1⟩ ∧
    (Ctx.mk 2) ≠ (Ctx.mk 1) :=
  ⟨rfl, by decide⟩

/-- C3 amended: the identity a handled tool-invocation message observes is
the one verified from that message-post's own token (and the transport
map is untouched); it coincides with the stream's open-time identity only
when the post presents a token for the same user, so distinct tenants
holding valid tokens can be multiplexed over one stream. -/
theorem C3_observed_identity_is_posts_own (cfg : VerifierCfg)
    (toolFx : Ctx → List Effect) (st : ServerState) (authH xsH : RawHeader)
    (now : Int) (sid : String) (obs bnd : Ctx) (fx : List Effect)
    (st' : ServerState)
    (h : postMessage cfg toolFx st authH xsH now sid =
      (.handled obs bnd, fx, st')) :
    requireSession cfg authH xsH now = .ok obs ∧
    lookupA st sid = some bnd ∧ st' = st := by
  unfold postMessage at h
  cases hrs : requireSession cfg authH xsH now with
  | error e =>
    rw [hrs] at h
    simp at h
  | ok sess =>
    rw [hrs] at h
    cases hl : lookupA st sid with
    | none =>
      rw [hl] at h
      simp at h
    | some b =>
      rw [hl] at h
      have h1 := congrArg Prod.fst h
      have h3 := congrArg (fun p => p.2.2) h
      simp at h1 h3
      obtain ⟨ho, hb⟩ := h1
      subst ho
      subst hb
      exact ⟨rfl, rfl, h3.symm⟩

theorem C3_observed_identity_is_posts_own_witness :
    postMessage (qbCfg "s") (fun _ => []) [("sid1", ⟨1⟩)]
        (.bearer (sessTok 2)) .missing 0 "sid1" =
      (.handled ⟨2⟩ ⟨1⟩, [.bindCtx 2], [("sid1", ⟨1⟩)]) ∧
    requireSession (qbCfg "s") (.bearer (sessTok 2)) .missing 0 = .ok ⟨2⟩ :=
  ⟨rfl,
   (C3_observed_identity_is_posts_own (qbCfg "s") (fun _ => [])
     [("sid1", ⟨1⟩)] (.bearer (sessTok 2)) .missing 0 "sid1" ⟨2⟩ ⟨1⟩
     [.bindCtx 2] [("sid1", ⟨1⟩)] rfl).1⟩

/-- C4: on any session-verification failure, both the stream-open and the
message-post handlers produce exactly one response — the single 401
authentication failure — perform no other effect first, leave the
transport map untouched, and in particular never reach a Token Store get
(whatever effects the tool layer `toolFx` would have performed). -/
theorem C4_verification_failure_single_401 (cfg : VerifierCfg)
    (st : ServerState) (authH xsH : RawHeader) (now : Int) (sid : String)
    (toolFx : Ctx → List Effect)
    (h : requireSession cfg authH xsH now = .error ()) :
    sseOpen cfg st authH xsH now sid = ([.respond 401 "invalid_session"], st) ∧
    postMessage cfg toolFx st authH xsH now sid =
      (.authFailed, [.respond 401 "invalid_session"], st) ∧
    (sseOpen cfg st authH xsH now sid).1.countP Effect.isRespond = 1 ∧
    (sseOpen cfg st authH xsH now sid).1.filter Effect.isTokenGet = [] ∧
    (postMessage cfg toolFx st authH xsH now sid).2.1.filter
      Effect.isTokenGet = [] := by
  refine ⟨?_, ?_, ?_, ?_, ?_⟩ <;>
    simp [sseOpen, postMessage, h, Effect.isRespond, Effect.isTokenGet]

theorem C4_verification_failure_single_401_witness :
    requireSession (qbCfg "s") (.bearer staleTok) .missing 11 = .error () ∧
    sseOpen (qbCfg "s") [] (.bearer staleTok) .missing 11 "sid1" =
      ([.respond 401 "invalid_session"], []) :=
  ⟨rfl,
   (C4_verification_failure_single_401 (qbCfg "s") [] (.bearer staleTok)
     .missing 11 "sid1" (fun _ => []) rfl).1⟩

/-- C5 counterexample: on a 2xx refresh whose body carries
`expires_in = 0`, the code stores `expires_at = null`, while the claim
requires expiry `now + expires_in` whenever the provider supplies
`expires_in`. -/
theorem C5_zero_expiresIn_stored_as_null :
    zeroExpResp.expires_in = some 0 ∧ respOk zeroExpResp.status = true ∧
    getTokens (refreshWithQbo "oldR" 1 (some "realm") zeroExpResp 50 []).2.1
        1 "quickbooks" =
      some ⟨1, "quickbooks", "newTok", some "oldR", some "realm", none⟩ ∧
    (none : Option Int) ≠ some (50 + 0) :=
  ⟨rfl, by decide, rfl, by decide⟩

/-- C5 amended: a successful (2xx) refresh upserts, for (tenant,
"quickbooks"), the new access token, the provider's rotated refresh token
when one is returned (else the previously stored one), the unchanged
provider-account handle, and expiry `now + expires_in` when the provider
supplies a non-zero `expires_in` — null when `expires_in` is absent or 0
(the code's truthiness test treats 0 as absent). -/
theorem C5_refresh_success_upsert_fields (rt : String) (uid : Nat)
    (realm : Option String) (resp : RefreshProviderResp) (now : Int)
    (tbl : List TokenRow) (hok : respOk resp.status = true) :
    (refreshWithQbo rt uid realm resp now tbl).1 = .ok () ∧
    getTokens (refreshWithQbo rt uid realm resp now tbl).2.1 uid "quickbooks" =
      some { userId := uid, provider := "quickbooks",
             access_token := resp.access_token,
             refresh_token := some (resp.refresh_token.getD rt),
             realmId := realm,
             expires_at := refreshExpiresAt resp.expires_in now } ∧
    (∀ e : Int, resp.expires_in = some e → e ≠ 0 →
      refreshExpiresAt resp.expires_in now = some (now + e)) ∧
    ((resp.expires_in = none ∨ resp.expires_in = some 0) →
      refreshExpiresAt resp.expires_in now = none) := by
  refine ⟨?_, ?_, ?_, ?_⟩
  · simp [refreshWithQbo, hok]
  · have hrw : refreshWithQbo rt uid realm resp now tbl =
        (.ok (), upsertTokens tbl
          { userId := uid, provider := "quickbooks",
            access_token := resp.access_token,
            refresh_token := some (resp.refresh_token.getD rt),
            realmId := realm,
            expires_at := refreshExpiresAt resp.expires_in now }, 1) := by
      simp [refreshWithQbo, hok]
    rw [hrw]
    exact getTokens_upsert tbl _
  · intro e he hne
    simp [refreshExpiresAt, he, hne]
  · rintro (he | he) <;> simp [refreshExpiresAt, he]

theorem C5_refresh_success_upsert_fields_witness :
    respOk 200 = true ∧
    getTokens (refreshWithQbo "oldR" 1 (some "realm")
        ⟨200, "", "tokN", some "rotR", some 3600⟩ 100 []).2.1 1 "quickbooks" =
      some ⟨1, "quickbooks", "tokN", some "rotR", some "realm", some 3700⟩ :=
  ⟨by decide,
   by
    have h := (C5_refresh_success_upsert_fields "oldR" 1 (some "realm")
      ⟨200, "", "tokN", some "rotR", some 3600⟩ 100 [] (by decide)).2.1
    simpa [refreshExpiresAt] using h⟩

theorem chatHandler_ok_user1 (env : BackendEnv) (tbl : List TokenRow)
    (now : Int) (req : ChatReq) (tok : SignedToken) (fx : List Effect)
    (h : chatHandler env tbl now req = (.ok tok, fx)) :
    tok.claims.userId = some 1 ∧
    fx.filter Effect.isTokenGet = [.tokenGet 1 "quickbooks"] := by
  unfold chatHandler at h
  cases hm : req.message with
  | none =>
    rw [hm] at h
    simp at h
  | some m =>
    simp only [hm] at h
    by_cases hme : m = ""
    · rw [if_pos hme] at h
      simp at h
    · rw [if_neg hme] at h
      by_cases hc : isQboConnected tbl now 1 = true
      · rw [if_neg (by simp [hc])] at h
        have h1 := congrArg Prod.fst h
        have h2 := congrArg Prod.snd h
        simp at h1 h2
        constructor
        · rw [← h1]
          rfl
        · rw [← h2]
          rfl
      · rw [if_pos (by simp [hc])] at h
        simp at h

/-- C9: every session token minted by `POST /chat` carries the constant
claim `userId = 1` whatever the request; the pre-flight connectivity check
reads exactly the Token Store entry for (1, "quickbooks"); hence the
tool-server sessions any two chat requests open resolve the same single
tenant's credential. -/
theorem C9_chat_always_user1 (env : BackendEnv) (tbl : List TokenRow)
    (now : Int) (req : ChatReq) (tok : SignedToken) (fx : List Effect)
    (h : chatHandler env tbl now req = (.ok tok, fx)) :
    tok.claims.userId = some 1 ∧
    fx.filter Effect.isTokenGet = [.tokenGet 1 "quickbooks"] ∧
    (∀ (env2 : BackendEnv) (tbl2 : List TokenRow) (now2 : Int)
      (req2 : ChatReq) (tok2 : SignedToken) (fx2 : List Effect),
      chatHandler env2 tbl2 now2 req2 = (.ok tok2, fx2) →
      tok2.claims.userId = tok.claims.userId) := by
  obtain ⟨h1, h2⟩ := chatHandler_ok_user1 env tbl now req tok fx h
  refine ⟨h1, h2, ?_⟩
  intro env2 tbl2 now2 req2 tok2 fx2 h'
  rw [(chatHandler_ok_user1 env2 tbl2 now2 req2 tok2 fx2 h').1, h1]

theorem C9_chat_always_user1_witness :
    chatHandler ⟨"s", "mcp", "backend", 3600⟩
        [⟨1, "quickbooks", "tokA", some "r", some "realm", none⟩] 0
        ⟨some "hi", []⟩ =
      (.ok (mintChatJwt ⟨"s", "mcp", "backend", 3600⟩ 0),
        [.tokenGet 1 "quickbooks", .respond 200 "chat"]) ∧
    (mintChatJwt ⟨"s", "mcp", "backend", 3600⟩ 0).claims.userId = some 1 :=
  ⟨rfl,
   (C9_chat_always_user1 ⟨"s", "mcp", "backend", 3600⟩
     [⟨1, "quickbooks", "tokA", some "r", some "realm", none⟩] 0
     ⟨some "hi", []⟩ (mintChatJwt ⟨"s", "mcp", "backend", 3600⟩ 0)
     [.tokenGet 1 "quickbooks", .respond 200 "chat"] rfl).1⟩

theorem isAuthError_not_ok {r : UpstreamResp} (h : isAuthError r = true) :
    respOk r.status = false := by
  have h' : r.status = 401 ∨ (r.status = 400 ∧ strIncl r.body "3100" = true) := by
    simpa [isAuthError] using h
  rcases h' with h' | ⟨h', _⟩ <;> simp [respOk, h']

theorem qbRequest_bounds (ctx : Option Ctx) (tbl : List TokenRow)
    (upstream : Nat → UpstreamResp) (rresp : RefreshProviderResp) (now : Int) :
    (qbRequest ctx tbl upstream rresp now).attempts ≤ 2 ∧
    (qbRequest ctx tbl upstream rresp now).refreshes ≤ 1 := by
  refine ⟨?_, ?_⟩ <;>
  · unfold qbRequest
    repeat' split
    all_goals simp

/-- C2: on a call with a bound context and a stored credential carrying a
refresh token, when both the original and the retried upstream request
fail as authorization failures (a 401, or a 400 whose body carries error
code 3100), the call makes exactly two upstream attempts and exactly one
refresh, and surfaces the terminal `Unauthorized after refresh` error; in
general every call makes at most two upstream attempts and at most one
refresh. -/
theorem C2_refresh_exactly_once (c : Ctx) (tbl : List TokenRow)
    (row : TokenRow) (upstream : Nat → UpstreamResp)
    (rresp : RefreshProviderResp) (now : Int)
    (hrow : getTokens tbl c.userId "quickbooks" = some row)
    (hat : row.access_token ≠ "") (hrealm : strTruthy row.realmId = true)
    (hrt : strTruthy row.refresh_token = true)
    (h0 : isAuthError (upstream 0) = true)
    (h1 : isAuthError (upstream 1) = true)
    (hok : respOk rresp.status = true) (hnat : rresp.access_token ≠ "") :
    (qbRequest (some c) tbl upstream rresp now).result =
      .error .unauthorized ∧
    (qbRequest (some c) tbl upstream rresp now).attempts = 2 ∧
    (qbRequest (some c) tbl upstream rresp now).refreshes = 1 ∧
    (∀ (ctx' : Option Ctx) (tbl' : List TokenRow) (up' : Nat → UpstreamResp)
      (rr' : RefreshProviderResp) (now' : Int),
      (qbRequest ctx' tbl' up' rr' now').attempts ≤ 2 ∧
      (qbRequest ctx' tbl' up' rr' now').refreshes ≤ 1) := by
  have hd0 : doFetch (upstream 0) (strTruthy row.refresh_token) =
      .needRefresh (upstream 0).body := by
    simp [doFetch, isAuthError_not_ok h0, h0, hrt]
  have hd1 : doFetch (upstream 1) (strTruthy row.refresh_token) =
      .needRefresh (upstream 1).body := by
    simp [doFetch, isAuthError_not_ok h1, h1, hrt]
  have hrw : refreshWithQbo (row.refresh_token.getD "") c.userId row.realmId
      rresp now tbl =
      (.ok (), upsertTokens tbl (refreshedRow c row rresp now), 1) := by
    simp [refreshWithQbo, hok, refreshedRow]
  have hg : getTokens (upsertTokens tbl (refreshedRow c row rresp now))
      c.userId "quickbooks" = some (refreshedRow c row rresp now) :=
    getTokens_upsert tbl _
  have key : qbRequest (some c) tbl upstream rresp now =
      ⟨.error .unauthorized,
        upsertTokens tbl (refreshedRow c row rresp now), 2, 1⟩ := by
    unfold qbRequest
    simp only [hrow]
    have hcond : (strTruthy (some row.access_token) && strTruthy row.realmId)
        = true := by
      rw [Bool.and_eq_true]
      exact ⟨by simpa [strTruthy] using hat, hrealm⟩
    rw [if_neg (by simp [hcond])]
    simp only [hd0, hrw, hg]
    rw [if_neg (by simp [strTruthy, refreshedRow, hnat])]
    simp only [hd1]
  refine ⟨?_, ?_, ?_, fun ctx' tbl' up' rr' now' =>
    qbRequest_bounds ctx' tbl' up' rr' now'⟩ <;> rw [key]

theorem C2_refresh_exactly_once_witness :
    isAuthError ⟨401, "expired"⟩ = true ∧ respOk 200 = true ∧
    (qbRequest (some ⟨1⟩)
        [⟨1, "quickbooks", "tokA", some "refR", some "realm", some 100⟩]
        (fun _ => ⟨401, "expired"⟩) ⟨200, "ok", "tokB", some "refR2", some 3600⟩
        0).result = .error .unauthorized ∧
    (qbRequest (some ⟨1⟩)
        [⟨1, "quickbooks", "tokA", some "refR", some "realm", some 100⟩]
        (fun _ => ⟨401, "expired"⟩) ⟨200, "ok", "tokB", some "refR2", some 3600⟩
        0).attempts = 2 := by
  have h := C2_refresh_exactly_once ⟨1⟩
    [⟨1, "quickbooks", "tokA", some "refR", some "realm", some 100⟩]
    ⟨1, "quickbooks", "tokA", some "refR", some "realm", some 100⟩
    (fun _ => ⟨401, "expired"⟩) ⟨200, "ok", "tokB", some "refR2", some 3600⟩ 0
    rfl (by decide) (by decide) (by decide) (by decide) (by decide)
    (by decide) (by decide)
  exact ⟨by decide, by decide, h.1, h.2.1⟩
